import Mathlib

/-!
Verification development for the cloud-identity subsystem of
`backend.ai-common` (`src/ai/backend/common/identity.py` and the `curl`
helper of `src/ai/backend/common/utils.py`).

The Python code is shallowly embedded: the outcome of every external
effect (HTTP requests, DNS resolution, file reads, the environment
variable, the subprocess run by the Amazon scaling-group accessor, and
the stdlib JSON parser) is supplied through explicit environment
records, and each accessor becomes a pure Lean function of such an
environment.  Python `None` is `Option.none`; an uncaught Python
exception is the `Outcome.exn` constructor; `exit(1)` (process
termination) is `Outcome.exitProc 1`.
-/

set_option autoImplicit false

/-- Result of the single HTTP GET issued by `curl`:
the request may time out (`asyncio.TimeoutError`), fail to connect
(`aiohttp.ClientError`), or complete with a status code and a body. -/
inductive HttpResult where
  | timeout
  | connError
  | response (status : Nat) (body : String)
deriving DecidableEq

/-- One HTTP request as `curl` issues it: URL, optional query
parameters, optional headers and the timeout (default `0.2` in the
source).  The network model of an environment maps requests to
`HttpResult`s. -/
structure Request where
  url : String
  params : Option (List (String × String))
  headers : Option (List (String × String))
  timeout : Rat

/-- The `default_value` argument of `curl`: Python `None`, a plain
string, or a callable producing a string (`callable(default_value)`). -/
inductive DefaultVal where
  | none
  | str (s : String)
  | fn (f : Unit → String)

/-- What `curl` returns on its failure path:
`if callable(default_value): return default_value()` else
`return default_value`. -/
def DefaultVal.resolve : DefaultVal → Option String
  | DefaultVal.none => Option.none
  | DefaultVal.str s => some s
  | DefaultVal.fn f => some (f ())

/-- The default `timeout=0.2` of `curl`. -/
def defaultCurlTimeout : Rat := (2 : Rat) / 10

/-- Python `str.lower()` (character-wise lowering). -/
def pyLower (s : String) : String :=
  String.mk (s.toList.map Char.toLower)

/-- Python `str.strip()`: remove leading and trailing whitespace. -/
def pyStrip (s : String) : String :=
  String.mk (((s.toList.dropWhile Char.isWhitespace).reverse.dropWhile
    Char.isWhitespace).reverse)

/-- Embedding of `utils.curl`: one GET; `assert resp.status == 200`,
body returned with `.strip()`; `asyncio.TimeoutError`,
`aiohttp.ClientError` and `AssertionError` all fall to the default. -/
def curl (net : Request → HttpResult) (url : String) (default_value : DefaultVal)
    (params : Option (List (String × String)))
    (headers : Option (List (String × String))) (timeout : Rat) : Option String :=
  match net ⟨url, params, headers, timeout⟩ with
  | HttpResult.response status body =>
      if status = 200 then some (pyStrip body) else default_value.resolve
  | HttpResult.timeout => default_value.resolve
  | HttpResult.connError => default_value.resolve

/-- Parsed JSON values, the possible results of Python `json.loads`. -/
inductive Json where
  | null
  | bool (b : Bool)
  | num (n : Int)
  | str (s : String)
  | arr (xs : List Json)
  | obj (fields : List (String × Json))

/-- Python `o[key]` on a parsed JSON value: a present key of an object
yields its value; a missing key (`KeyError`) or a non-object receiver
(`TypeError`) yields `none`, which the accessors turn into an uncaught
exception. -/
def Json.getKey (j : Json) (k : String) : Option Json :=
  match j with
  | Json.obj fields => fields.lookup k
  | _ => Option.none

/-- Python `o[i]` with an integer index: in-range indexing of an array
yields the element; out-of-range (`IndexError`) or a non-array receiver
(`TypeError`/`KeyError`) yields `none`. -/
def Json.getIdx (j : Json) (i : Nat) : Option Json :=
  match j with
  | Json.arr xs => xs.get? i
  | _ => Option.none

/-- Python f-string conversion of a parsed JSON value, as used by
`f"amazon/..."` and `f"azure/..."`.  Faithful for the scalar
cases; the textual form of composite values is abstracted (no accessor
behaviour relevant to the claims depends on it). -/
def Json.pyStr : Json → String
  | Json.null => "None"
  | Json.bool true => "True"
  | Json.bool false => "False"
  | Json.num n => toString n
  | Json.str s => s
  | Json.arr _ => "<list>"
  | Json.obj _ => "<dict>"

/-- Outcome of calling one accessor: a returned Python value, an
uncaught exception propagating to the caller, or process termination
via `exit(code)`. -/
inductive Outcome (α : Type) where
  | ok (val : α)
  | exn
  | exitProc (code : Nat)

/-- Environment of one accessor call: the network, the local hostname,
the result of `aiodns` A-record resolution of the hostname (`none`
models `aiodns.error.DNSError`, otherwise the address list), the value
of the `BACKEND_REGION` environment variable, the `(stdout, stderr)` of
the `sh ./retrieve_tag.sh Scaling_Group` subprocess, and the stdlib
JSON parser (`none` models a `json.loads` failure). -/
structure Env where
  net : Request → HttpResult
  hostname : String
  dnsResult : Option (List String)
  backendRegion : Option String
  subprocess : String × String
  jsonParse : String → Option Json

/-- All network access fails: every HTTP request times out or fails to
connect, and DNS resolution of the local hostname fails. -/
def networkDown (env : Env) : Prop :=
  (∀ r : Request, env.net r = HttpResult.timeout ∨ env.net r = HttpResult.connError)
  ∧ env.dnsResult = Option.none

/-- Whether `pre` is a prefix of `l` (over characters). -/
def listIsPrefix : List Char → List Char → Bool
  | [], _ => true
  | _ :: _, [] => false
  | a :: as, b :: bs => a == b && listIsPrefix as bs

/-- Whether `needle` occurs as a contiguous sublist of the second list. -/
def listHasInfix (needle : List Char) : List Char → Bool
  | [] => listIsPrefix needle []
  | c :: cs => listIsPrefix needle (c :: cs) || listHasInfix needle cs

/-- Python's substring test `needle in hay`. -/
def strContains (hay needle : String) : Bool :=
  listHasInfix needle.toList hay.toList

/-- Python `s.rsplit(sep, 1)[0]` for `sep = "-"`: everything before the
last occurrence of `-`, or `s` unchanged when `-` does not occur. -/
def rsplit1Head (s : String) : String :=
  match (s.toList.reverse).dropWhile (fun c => c ≠ '-') with
  | [] => s
  | _ :: rest => String.mk rest.reverse

/-- Environment of the module-load-time functions: whether
`sys.platform.startswith('linux')`, and the contents of the three files
read by detection (`none` models `IOError`): the DMI BIOS-version file,
the DHCP lease file, and `/proc/self/cgroup`. -/
structure DetectEnv where
  platformIsLinux : Bool
  biosFile : Option String
  dhcpFile : Option String
  cgroupFile : Option String

/-- Embedding of `identity.is_containerized`.  The result is the Python
return value: `some b` for an explicit `return`, `Option.none` for the
implicit `return None` when the file is readable but holds neither
`/docker/` nor `/lxc/` (the function body has no final `return False`). -/
def is_containerized (env : DetectEnv) : Option Bool :=
  match env.cgroupFile with
  | Option.none => some false
  | some cginfo =>
      if strContains cginfo "/docker/" || strContains cginfo "/lxc/" then some true
      else Option.none

/-- Embedding of `identity.detect_cloud`: Linux only; lowercased BIOS
version checked for `google` then `amazon`; then the DHCP lease file
checked for `unknown-245` (Azure); an unreadable file (`IOError`) is
skipped; otherwise `unknown`. -/
def detect_cloud (env : DetectEnv) : String :=
  if env.platformIsLinux then
    let fromBios : Option String :=
      match env.biosFile with
      | Option.none => Option.none
      | some content =>
          let bios := pyLower content
          if strContains bios "google" then some "google"
          else if strContains bios "amazon" then some "amazon"
          else Option.none
    match fromBios with
    | some p => p
    | Option.none =>
        match env.dhcpFile with
        | some dhcp => if strContains dhcp "unknown-245" then "azure" else "unknown"
        | Option.none => "unknown"
  else "unknown"

/-- Amazon metadata URL prefix (`_metadata_prefix` in the source). -/
def amazonMetadataPrefix : String := "http://169.254.169.254/latest/meta-data/"

/-- Amazon dynamic-data URL prefix (`_dynamic_prefix` in the source). -/
def amazonDynamicPrefix : String := "http://169.254.169.254/latest/dynamic/"

/-- Amazon `_get_instance_id`: bounded GET of `instance-id` with the
callable default `lambda: f"i-..."` over the hostname. -/
def amazon_get_instance_id (env : Env) : Outcome (Option Json) :=
  Outcome.ok ((curl env.net (amazonMetadataPrefix ++ "instance-id")
    (DefaultVal.fn fun _ => "i-" ++ env.hostname)
    Option.none Option.none defaultCurlTimeout).map Json.str)

/-- Amazon `_get_instance_ip`: bounded GET of `local-ipv4` with string
default `"127.0.0.1"`. -/
def amazon_get_instance_ip (env : Env) : Outcome (Option Json) :=
  Outcome.ok ((curl env.net (amazonMetadataPrefix ++ "local-ipv4")
    (DefaultVal.str "127.0.0.1")
    Option.none Option.none defaultCurlTimeout).map Json.str)

/-- Amazon `_get_instance_type`: bounded GET of `instance-type` with
string default `"unknown"`. -/
def amazon_get_instance_type (env : Env) : Outcome (Option Json) :=
  Outcome.ok ((curl env.net (amazonMetadataPrefix ++ "instance-type")
    (DefaultVal.str "unknown")
    Option.none Option.none defaultCurlTimeout).map Json.str)

/-- Amazon `_get_instance_region`: GET of the dynamic identity document
with the implicit default `None`; on `None` returns `"amazon/unknown"`,
otherwise `json.loads(doc)["region"]` (an uncaught exception when
parsing or the key lookup fails) formatted as `f"amazon/..."`. -/
def amazon_get_instance_region (env : Env) : Outcome (Option Json) :=
  match curl env.net (amazonDynamicPrefix ++ "instance-identity/document")
      DefaultVal.none Option.none Option.none defaultCurlTimeout with
  | Option.none => Outcome.ok (some (Json.str "amazon/unknown"))
  | some doc =>
      match env.jsonParse doc with
      | Option.none => Outcome.exn
      | some o =>
          match o.getKey "region" with
          | Option.none => Outcome.exn
          | some r => Outcome.ok (some (Json.str ("amazon/" ++ r.pyStr)))

/-- The tag-retrieval shell script written by the Amazon
`_get_instance_scaling_group` accessor (braces and single quotes of the
shell text appear as character escapes). -/
def retrieve_tag_script : String :=
  "\n#!/bin/bash\n\nif [ -z $1 ]; then\n    scriptName=`basename \"$0\"`\n    echo  >&2 \"Usage: $scriptName <tag_name>\"\n    exit 1\nfi\n\n" ++
  "# check that aws and ec2-metadata commands are installed\ncommand -v aws >/dev/null 2>&1 || \x7b echo >&2 \x27aws command not installed.\x27; exit 2; \x7d\n" ++
  "command -v ec2-metadata >/dev/null 2>&1 || \x7b echo >&2 \x27ec2-metadata command not installed.\x27; exit 3; \x7d\n\n" ++
  "# set filter parameters\ninstanceId=$(ec2-metadata -i | cut -d \x27 \x27 -f2)\nfilterParams=( --filters \"Name=key,Values=$1\" \\\n    \"Name=resource-type,Values=instance\" \"Name=resource-id,Values=$instanceId\" )\n\n" ++
  "# get region\nregion=$(ec2-metadata --availability-zone | cut -d \x27 \x27 -f2)\nregion=$\x7bregion%?\x7d\n\n" ++
  "# retrieve tags\ntagValues=$(aws ec2 describe-tags --output text --region \"$region\" \"$\x7bfilterParams[@]\x7d\")\nif [ $? -ne 0 ]; then\n    echo >&2 \"Error retrieving tag value.\"\n    exit 4\nfi\n\n" ++
  "# extract required tag value\ntagValue=$(echo \"$tagValues\" | cut -f5)\necho \"$tagValue\"\n            "

/-- Filesystem effects of one Amazon scaling-group call on the
`./retrieve_tag.sh` script file: the content written (if any), whether
the script was executed, and whether `unlink` ran. -/
structure FsTrace where
  scriptWritten : Option String
  scriptExecuted : Bool
  scriptDeleted : Bool

/-- Amazon `_get_instance_scaling_group` with its filesystem trace: the
script is written and executed unconditionally; a non-empty decoded
stderr (`if errs:`) logs and calls `exit(1)` before the `unlink`, so the
script is deleted only on the return path, where the decoded raw stdout
is the returned fact value. -/
def amazon_get_instance_scaling_group_impl (env : Env) :
    Outcome (Option Json) × FsTrace :=
  let outs := env.subprocess.fst
  let errs := env.subprocess.snd
  if errs = "" then
    (Outcome.ok (some (Json.str outs)),
      ⟨some retrieve_tag_script, true, true⟩)
  else
    (Outcome.exitProc 1,
      ⟨some retrieve_tag_script, true, false⟩)

/-- The value part of the Amazon scaling-group accessor. -/
def amazon_get_instance_scaling_group (env : Env) : Outcome (Option Json) :=
  (amazon_get_instance_scaling_group_impl env).fst

/-- Azure metadata URL (`_metadata_prefix` in the source). -/
def azureMetadataPrefix : String := "http://169.254.169.254/metadata/instance"

/-- Query parameters of every Azure metadata request. -/
def azureParams : Option (List (String × String)) := some [("version", "2017-03-01")]

/-- Headers of every Azure metadata request. -/
def azureHeaders : Option (List (String × String)) := some [("Metadata", "true")]

/-- The shared `curl` call of the four Azure accessors: explicit default
`None`, pinned API version parameter, `Metadata: true` header. -/
def azure_fetch (env : Env) : Option String :=
  curl env.net azureMetadataPrefix DefaultVal.none azureParams azureHeaders
    defaultCurlTimeout

/-- Azure `_get_instance_id`: on `None` data the default
`f"i-..."` over the hostname; otherwise
`json.loads(data)["compute"]["vmId"]`, each failing step an uncaught
exception, the found value returned as-is. -/
def azure_get_instance_id (env : Env) : Outcome (Option Json) :=
  match azure_fetch env with
  | Option.none => Outcome.ok (some (Json.str ("i-" ++ env.hostname)))
  | some data =>
      match env.jsonParse data with
      | Option.none => Outcome.exn
      | some o =>
          match o.getKey "compute" with
          | Option.none => Outcome.exn
          | some c =>
              match c.getKey "vmId" with
              | Option.none => Outcome.exn
              | some v => Outcome.ok (some v)

/-- The lookup chain
`o["network"]["interface"][0]["ipv4"]["ipaddress"][0]["ipaddress"]`
of the Azure ip accessor. -/
def azureIpPath (o : Json) : Option Json :=
  (o.getKey "network").bind fun a =>
  (a.getKey "interface").bind fun b =>
  (b.getIdx 0).bind fun c =>
  (c.getKey "ipv4").bind fun d =>
  (d.getKey "ipaddress").bind fun e =>
  (e.getIdx 0).bind fun f =>
  f.getKey "ipaddress"

/-- Azure `_get_instance_ip`: default `"127.0.0.1"` on `None` data,
otherwise the nested interface lookup, failing steps uncaught. -/
def azure_get_instance_ip (env : Env) : Outcome (Option Json) :=
  match azure_fetch env with
  | Option.none => Outcome.ok (some (Json.str "127.0.0.1"))
  | some data =>
      match env.jsonParse data with
      | Option.none => Outcome.exn
      | some o =>
          match azureIpPath o with
          | Option.none => Outcome.exn
          | some v => Outcome.ok (some v)

/-- Azure `_get_instance_type`: default `"unknown"` on `None` data,
otherwise `json.loads(data)["compute"]["vmSize"]`. -/
def azure_get_instance_type (env : Env) : Outcome (Option Json) :=
  match azure_fetch env with
  | Option.none => Outcome.ok (some (Json.str "unknown"))
  | some data =>
      match env.jsonParse data with
      | Option.none => Outcome.exn
      | some o =>
          match o.getKey "compute" with
          | Option.none => Outcome.exn
          | some c =>
              match c.getKey "vmSize" with
              | Option.none => Outcome.exn
              | some v => Outcome.ok (some v)

/-- Azure `_get_instance_region`: default `"azure/unknown"` on `None`
data, otherwise `json.loads(data)["compute"]["location"]` formatted as
`f"azure/..."`. -/
def azure_get_instance_region (env : Env) : Outcome (Option Json) :=
  match azure_fetch env with
  | Option.none => Outcome.ok (some (Json.str "azure/unknown"))
  | some data =>
      match env.jsonParse data with
      | Option.none => Outcome.exn
      | some o =>
          match o.getKey "compute" with
          | Option.none => Outcome.exn
          | some c =>
              match c.getKey "location" with
              | Option.none => Outcome.exn
              | some v => Outcome.ok (some (Json.str ("azure/" ++ v.pyStr)))

/-- Azure `_get_instance_scaling_group`: constant `"default"`. -/
def azure_get_instance_scaling_group (_env : Env) : Outcome (Option Json) :=
  Outcome.ok (some (Json.str "default"))

/-- Google metadata URL prefix (`_metadata_prefix` in the source). -/
def googleMetadataPrefix : String := "http://metadata.google.internal/computeMetadata/v1/"

/-- Header of every Google metadata request. -/
def googleHeaders : Option (List (String × String)) := some [("Metadata-Flavor", "Google")]

/-- Google `_get_instance_id`: bounded GET of `instance/id` with the
callable default over the hostname. -/
def google_get_instance_id (env : Env) : Outcome (Option Json) :=
  Outcome.ok ((curl env.net (googleMetadataPrefix ++ "instance/id")
    (DefaultVal.fn fun _ => "i-" ++ env.hostname)
    Option.none googleHeaders defaultCurlTimeout).map Json.str)

/-- Google `_get_instance_ip`: bounded GET of
`instance/network-interfaces/0/ip`, default `"127.0.0.1"`. -/
def google_get_instance_ip (env : Env) : Outcome (Option Json) :=
  Outcome.ok ((curl env.net (googleMetadataPrefix ++ "instance/network-interfaces/0/ip")
    (DefaultVal.str "127.0.0.1")
    Option.none googleHeaders defaultCurlTimeout).map Json.str)

/-- Google `_get_instance_type`: bounded GET of `instance/machine-type`,
default `"unknown"`. -/
def google_get_instance_type (env : Env) : Outcome (Option Json) :=
  Outcome.ok ((curl env.net (googleMetadataPrefix ++ "instance/machine-type")
    (DefaultVal.str "unknown")
    Option.none googleHeaders defaultCurlTimeout).map Json.str)

/-- The request issued by the Google region accessor. -/
def googleZoneRequest : Request :=
  ⟨googleMetadataPrefix ++ "instance/zone", Option.none, googleHeaders,
    defaultCurlTimeout⟩

/-- Google `_get_instance_region`: bounded GET of `instance/zone` with
string default `"unknown"`, then `zone.rsplit('-', 1)[0]` prefixed by
`"google/"`.  The `none` branch models the `AttributeError` that
`zone.rsplit` would raise on `None`; it is unreachable because the
default is a string. -/
def google_get_instance_region (env : Env) : Outcome (Option Json) :=
  match curl env.net (googleMetadataPrefix ++ "instance/zone")
      (DefaultVal.str "unknown") Option.none googleHeaders defaultCurlTimeout with
  | some zone => Outcome.ok (some (Json.str ("google/" ++ rsplit1Head zone)))
  | Option.none => Outcome.exn

/-- Google `_get_instance_scaling_group`: constant `"default"`. -/
def google_get_instance_scaling_group (_env : Env) : Outcome (Option Json) :=
  Outcome.ok (some (Json.str "default"))

/-- Local/unknown `_get_instance_id`: `f"i-..."` over the hostname, no
network. -/
def unknown_get_instance_id (env : Env) : Outcome (Option Json) :=
  Outcome.ok (some (Json.str ("i-" ++ env.hostname)))

/-- Local/unknown `_get_instance_ip`: A-record resolution of the local
hostname; `aiodns.error.DNSError` is caught and yields `"127.0.0.1"`;
`result.addresses[0]` on an empty address list is an uncaught
`IndexError`. -/
def unknown_get_instance_ip (env : Env) : Outcome (Option Json) :=
  match env.dnsResult with
  | Option.none => Outcome.ok (some (Json.str "127.0.0.1"))
  | some [] => Outcome.exn
  | some (a :: _) => Outcome.ok (some (Json.str a))

/-- Local/unknown `_get_instance_type`: constant `"unknown"`. -/
def unknown_get_instance_type (_env : Env) : Outcome (Option Json) :=
  Outcome.ok (some (Json.str "unknown"))

/-- Local/unknown `_get_instance_region`:
`os.environ.get('BACKEND_REGION', 'local/unknown')` — the variable's
value verbatim when set (even if empty), else `"local/unknown"`. -/
def unknown_get_instance_region (env : Env) : Outcome (Option Json) :=
  Outcome.ok (some (Json.str (env.backendRegion.getD "local/unknown")))

/-- Local/unknown `_get_instance_scaling_group`: constant `"default"`. -/
def unknown_get_instance_scaling_group (_env : Env) : Outcome (Option Json) :=
  Outcome.ok (some (Json.str "default"))

/-- The five facts of the accessor contract. -/
inductive FactKind where
  | id
  | ip
  | type
  | region
  | scalingGroup
deriving DecidableEq

/-- The record of five bound accessors (the module-level
`get_instance_*` globals after `_define_functions` ran). -/
structure ResolverSet where
  get_instance_id : Env → Outcome (Option Json)
  get_instance_ip : Env → Outcome (Option Json)
  get_instance_type : Env → Outcome (Option Json)
  get_instance_region : Env → Outcome (Option Json)
  get_instance_scaling_group : Env → Outcome (Option Json)

/-- Select one accessor from a resolver set by fact. -/
def ResolverSet.getFact (r : ResolverSet) : FactKind → Env → Outcome (Option Json)
  | FactKind.id => r.get_instance_id
  | FactKind.ip => r.get_instance_ip
  | FactKind.type => r.get_instance_type
  | FactKind.region => r.get_instance_region
  | FactKind.scalingGroup => r.get_instance_scaling_group

/-- The accessor set bound when `current_provider == 'amazon'`. -/
def amazonResolvers : ResolverSet :=
  ⟨amazon_get_instance_id, amazon_get_instance_ip, amazon_get_instance_type,
    amazon_get_instance_region, amazon_get_instance_scaling_group⟩

/-- The accessor set bound when `current_provider == 'azure'`. -/
def azureResolvers : ResolverSet :=
  ⟨azure_get_instance_id, azure_get_instance_ip, azure_get_instance_type,
    azure_get_instance_region, azure_get_instance_scaling_group⟩

/-- The accessor set bound when `current_provider == 'google'`. -/
def googleResolvers : ResolverSet :=
  ⟨google_get_instance_id, google_get_instance_ip, google_get_instance_type,
    google_get_instance_region, google_get_instance_scaling_group⟩

/-- The accessor set bound by the final `else` branch. -/
def unknownResolvers : ResolverSet :=
  ⟨unknown_get_instance_id, unknown_get_instance_ip, unknown_get_instance_type,
    unknown_get_instance_region, unknown_get_instance_scaling_group⟩

/-- The `if current_provider == ... elif ... else` dispatch of
`_define_functions`. -/
def buildResolvers (provider : String) : ResolverSet :=
  if provider = "amazon" then amazonResolvers
  else if provider = "azure" then azureResolvers
  else if provider = "google" then googleResolvers
  else unknownResolvers

/-- Module-level mutable state of `identity.py`: `current_provider`,
the `_defined` flag, and the five accessor globals (`none` before
binding, `some` of a full set afterwards — they are always assigned
together). -/
structure ModuleState where
  current_provider : String
  flagDefined : Bool
  resolvers : Option ResolverSet

/-- Embedding of `_define_functions`: an early return when `_defined`
is already set, otherwise bind all five accessors for
`current_provider` and set the flag. -/
def define_functions (s : ModuleState) : ModuleState :=
  if s.flagDefined then s
  else ⟨s.current_provider, true, some (buildResolvers s.current_provider)⟩

/-- Module import sequence of `identity.py`: `current_provider =
detect_cloud()` at load, `_defined = False`, the five globals `None`,
then the module-level call `_define_functions()` — all before any fact
is requested. -/
def moduleLoad (denv : DetectEnv) : ModuleState :=
  define_functions ⟨detect_cloud denv, false, Option.none⟩

/-- A returned fact that is a non-empty string (neither `None`, nor an
empty string, nor a non-string value, nor an exception or process
exit). -/
def isNonEmptyStringFact : Outcome (Option Json) → Bool
  | Outcome.ok (some (Json.str s)) => s != ""
  | _ => false

/-- An environment in which every HTTP request fails to connect, DNS
fails, the scaling-group helper reports an error on stderr, and
`BACKEND_REGION` is set to the empty string. -/
def envDown : Env :=
  ⟨fun _ => HttpResult.connError, "host1", Option.none, some "",
    ("", "aws command not installed.\n"), fun _ => Option.none⟩

/-- An environment in which every HTTP request fails to connect, DNS
fails, the scaling-group helper succeeds with output `sg-a\n`, and
`BACKEND_REGION` is unset. -/
def envDownOk : Env :=
  ⟨fun _ => HttpResult.connError, "host1", Option.none, Option.none,
    ("sg-a\n", ""), fun _ => Option.none⟩

/-- An environment in which every HTTP request answers 200 with the
body `hello`, which is not valid JSON (`json.loads` fails on it). -/
def envBadJson : Env :=
  ⟨fun _ => HttpResult.response 200 "hello", "host1", Option.none,
    Option.none, ("", ""), fun _ => Option.none⟩

/-- An environment in which every HTTP request answers 200 with the
Google zone document `projects/123/zones/us-central1-a`. -/
def envGoogleZone : Env :=
  ⟨fun _ => HttpResult.response 200 "projects/123/zones/us-central1-a",
    "host1", Option.none, Option.none, ("", ""), fun _ => Option.none⟩

/-- A Linux detection environment whose BIOS version file reads
`Google`, with the other files unreadable. -/
def denvGoogle : DetectEnv := ⟨true, some "Google", Option.none, Option.none⟩

/-- A Linux detection environment with every file unreadable. -/
def denvBare : DetectEnv := ⟨true, Option.none, Option.none, Option.none⟩

/-- A network answering every request with status 200 and a body that
carries surrounding whitespace. -/
def netTrimDemo : Request → HttpResult := fun _ => HttpResult.response 200 "  10.0.0.7\n"

/-- A module state whose `_defined` flag is already set. -/
def stateDefined : ModuleState := ⟨"unknown", true, some unknownResolvers⟩

theorem curl_net_down (env : Env)
    (h : ∀ r : Request, env.net r = HttpResult.timeout ∨ env.net r = HttpResult.connError)
    (url : String) (dv : DefaultVal) (ps hs : Option (List (String × String)))
    (t : Rat) : curl env.net url dv ps hs t = dv.resolve := by
  rcases h ⟨url, ps, hs, t⟩ with h' | h' <;> simp [curl, h']

theorem i_hostname_ne_empty (h : String) : (("i-" ++ h) != "") = true := by
  rw [bne_iff_ne]
  intro hc
  have hlen := congrArg String.length hc
  rw [String.length_append] at hlen
  have h2 : ("i-" : String).length = 2 := rfl
  have h0 : ("" : String).length = 0 := rfl
  omega

theorem amazon_id_down (env : Env) (h : networkDown env) :
    amazon_get_instance_id env
      = Outcome.ok (some (Json.str ("i-" ++ env.hostname))) := by
  unfold amazon_get_instance_id
  rw [curl_net_down env h.1]
  rfl

theorem amazon_ip_down (env : Env) (h : networkDown env) :
    amazon_get_instance_ip env = Outcome.ok (some (Json.str "127.0.0.1")) := by
  unfold amazon_get_instance_ip
  rw [curl_net_down env h.1]
  rfl

theorem amazon_type_down (env : Env) (h : networkDown env) :
    amazon_get_instance_type env = Outcome.ok (some (Json.str "unknown")) := by
  unfold amazon_get_instance_type
  rw [curl_net_down env h.1]
  rfl

theorem amazon_region_down (env : Env) (h : networkDown env) :
    amazon_get_instance_region env
      = Outcome.ok (some (Json.str "amazon/unknown")) := by
  unfold amazon_get_instance_region
  rw [curl_net_down env h.1]
  rfl

theorem azure_fetch_down (env : Env) (h : networkDown env) :
    azure_fetch env = Option.none := by
  unfold azure_fetch
  rw [curl_net_down env h.1]
  rfl

theorem azure_id_down (env : Env) (h : networkDown env) :
    azure_get_instance_id env
      = Outcome.ok (some (Json.str ("i-" ++ env.hostname))) := by
  unfold azure_get_instance_id
  rw [azure_fetch_down env h]

theorem azure_ip_down (env : Env) (h : networkDown env) :
    azure_get_instance_ip env = Outcome.ok (some (Json.str "127.0.0.1")) := by
  unfold azure_get_instance_ip
  rw [azure_fetch_down env h]

theorem azure_type_down (env : Env) (h : networkDown env) :
    azure_get_instance_type env = Outcome.ok (some (Json.str "unknown")) := by
  unfold azure_get_instance_type
  rw [azure_fetch_down env h]

theorem azure_region_down (env : Env) (h : networkDown env) :
    azure_get_instance_region env
      = Outcome.ok (some (Json.str "azure/unknown")) := by
  unfold azure_get_instance_region
  rw [azure_fetch_down env h]

theorem google_id_down (env : Env) (h : networkDown env) :
    google_get_instance_id env
      = Outcome.ok (some (Json.str ("i-" ++ env.hostname))) := by
  unfold google_get_instance_id
  rw [curl_net_down env h.1]
  rfl

theorem google_ip_down (env : Env) (h : networkDown env) :
    google_get_instance_ip env = Outcome.ok (some (Json.str "127.0.0.1")) := by
  unfold google_get_instance_ip
  rw [curl_net_down env h.1]
  rfl

theorem google_type_down (env : Env) (h : networkDown env) :
    google_get_instance_type env = Outcome.ok (some (Json.str "unknown")) := by
  unfold google_get_instance_type
  rw [curl_net_down env h.1]
  rfl

theorem google_region_down (env : Env) (h : networkDown env) :
    google_get_instance_region env
      = Outcome.ok (some (Json.str "google/unknown")) := by
  unfold google_get_instance_region
  rw [curl_net_down env h.1]
  rfl

theorem unknown_ip_down (env : Env) (h : networkDown env) :
    unknown_get_instance_ip env = Outcome.ok (some (Json.str "127.0.0.1")) := by
  unfold unknown_get_instance_ip
  rw [h.2]

/-- Claim C3: `curl(url, default_value, params, headers, timeout)`
returns the response body with surrounding whitespace trimmed when the
single GET completes with status 200; on timeout expiry, connection
failure, or any non-200 status it returns `default_value`, first
invoking it and returning the call's result when `default_value` is
callable. -/
theorem claim_C3 (net : Request → HttpResult) (url : String) (dv : DefaultVal)
    (ps hds : Option (List (String × String))) (t : Rat) :
    (∀ body : String, net ⟨url, ps, hds, t⟩ = HttpResult.response 200 body →
        curl net url dv ps hds t = some (pyStrip body))
    ∧ (net ⟨url, ps, hds, t⟩ = HttpResult.timeout →
        curl net url dv ps hds t = dv.resolve)
    ∧ (net ⟨url, ps, hds, t⟩ = HttpResult.connError →
        curl net url dv ps hds t = dv.resolve)
    ∧ (∀ status : Nat, ∀ body : String, status ≠ 200 →
        net ⟨url, ps, hds, t⟩ = HttpResult.response status body →
        curl net url dv ps hds t = dv.resolve)
    ∧ (∀ f : Unit → String, dv = DefaultVal.fn f → dv.resolve = some (f ()))
    ∧ (∀ s : String, dv = DefaultVal.str s → dv.resolve = some s) := by
  refine ⟨?_, ?_, ?_, ?_, ?_, ?_⟩
  · intro body hb
    simp [curl, hb]
  · intro hb
    simp [curl, hb]
  · intro hb
    simp [curl, hb]
  · intro status body hst hb
    simp [curl, hb, hst]
  · intro f hf
    simp [hf, DefaultVal.resolve]
  · intro s hsv
    simp [hsv, DefaultVal.resolve]

/-- Witness for C3: a 200 response with body `"  10.0.0.7\n"` yields
the trimmed body `"10.0.0.7"`. -/
theorem claim_C3_witness :
    curl netTrimDemo "u" DefaultVal.none Option.none Option.none
      defaultCurlTimeout = some "10.0.0.7" := by
  have h := (claim_C3 netTrimDemo "u" DefaultVal.none Option.none Option.none
    defaultCurlTimeout).1 "  10.0.0.7\n" rfl
  rw [h]
  rfl

/-- Claim C4: the amazon scaling-group accessor writes the tag-lookup
shell script, executes it, and, when the helper's error stream is
empty, returns the raw standard output and deletes the script; it
terminates the whole process with the non-zero status 1 exactly when
the helper's error stream is non-empty. -/
theorem claim_C4 (env : Env) :
    (amazon_get_instance_scaling_group_impl env).snd.scriptWritten
        = some retrieve_tag_script
    ∧ (amazon_get_instance_scaling_group_impl env).snd.scriptExecuted = true
    ∧ (env.subprocess.snd = "" →
        (amazon_get_instance_scaling_group_impl env).fst
            = Outcome.ok (some (Json.str env.subprocess.fst))
        ∧ (amazon_get_instance_scaling_group_impl env).snd.scriptDeleted = true)
    ∧ ((amazon_get_instance_scaling_group_impl env).fst = Outcome.exitProc 1
        ↔ env.subprocess.snd ≠ "") := by
  by_cases h : env.subprocess.snd = "" <;>
    simp [amazon_get_instance_scaling_group_impl, h]

/-- Witness for C4: a helper run with stdout `"sg-a\n"` and empty
stderr returns that output and deletes the script. -/
theorem claim_C4_witness :
    (amazon_get_instance_scaling_group_impl envDownOk).fst
        = Outcome.ok (some (Json.str "sg-a\n"))
    ∧ (amazon_get_instance_scaling_group_impl envDownOk).snd.scriptDeleted
        = true := by
  have h := (claim_C4 envDownOk).2.2.1 rfl
  exact h

/-- Counterexample for C5: on the zone string
`projects/123/zones/us-central1-a` the google region accessor returns
`google/projects/123/zones/us-central1`, not the claimed
`google/us-central1` — `rsplit('-', 1)[0]` removes only the trailing
dash segment and keeps the `projects/.../zones/` prefix. -/
theorem claim_C5_counterexample :
    google_get_instance_region envGoogleZone
        = Outcome.ok (some (Json.str "google/projects/123/zones/us-central1"))
    ∧ ("google/projects/123/zones/us-central1" : String) ≠ "google/us-central1" :=
  ⟨rfl, by decide⟩

/-- Claim C5 (amended): the google region accessor strips the trailing
dash-delimited segment from the fetched (trimmed) zone body and
prefixes `google/`. -/
theorem claim_C5 (env : Env) (body : String)
    (h : env.net googleZoneRequest = HttpResult.response 200 body) :
    google_get_instance_region env
        = Outcome.ok (some (Json.str ("google/" ++ rsplit1Head (pyStrip body)))) := by
  have h' : env.net ⟨googleMetadataPrefix ++ "instance/zone", Option.none,
      googleHeaders, defaultCurlTimeout⟩ = HttpResult.response 200 body := h
  unfold google_get_instance_region curl
  rw [h']
  simp

/-- Witness for C5: the amended statement applied to the concrete zone
document. -/
theorem claim_C5_witness :
    google_get_instance_region envGoogleZone
        = Outcome.ok (some (Json.str
            ("google/" ++ rsplit1Head (pyStrip "projects/123/zones/us-central1-a")))) :=
  claim_C5 envGoogleZone "projects/123/zones/us-central1-a" rfl

/-- Claim C6: `detect_cloud` short-circuits in a fixed order — non-Linux
platforms give `unknown` immediately; a case-insensitive `google` or
`amazon` substring of the BIOS-version file gives that tag; else the
`unknown-245` option in the DHCP lease file gives `azure`; else
`unknown`.  An unreadable file never raises (the embedding is total)
and only advances to the next check. -/
theorem claim_C6 (env : DetectEnv) :
    (env.platformIsLinux = false → detect_cloud env = "unknown")
    ∧ (∀ c : String, env.platformIsLinux = true → env.biosFile = some c →
        strContains (pyLower c) "google" = true → detect_cloud env = "google")
    ∧ (∀ c : String, env.platformIsLinux = true → env.biosFile = some c →
        strContains (pyLower c) "google" = false →
        strContains (pyLower c) "amazon" = true → detect_cloud env = "amazon")
    ∧ (∀ d : String, env.platformIsLinux = true →
        (env.biosFile = Option.none ∨ ∃ c, env.biosFile = some c ∧
            strContains (pyLower c) "google" = false ∧
            strContains (pyLower c) "amazon" = false) →
        env.dhcpFile = some d → strContains d "unknown-245" = true →
        detect_cloud env = "azure")
    ∧ (env.platformIsLinux = true →
        (env.biosFile = Option.none ∨ ∃ c, env.biosFile = some c ∧
            strContains (pyLower c) "google" = false ∧
            strContains (pyLower c) "amazon" = false) →
        (env.dhcpFile = Option.none ∨ ∃ d, env.dhcpFile = some d ∧
            strContains d "unknown-245" = false) →
        detect_cloud env = "unknown") := by
  refine ⟨?_, ?_, ?_, ?_, ?_⟩
  · intro hlin
    simp [detect_cloud, hlin]
  · intro c hlin hb hg
    simp [detect_cloud, hlin, hb, hg]
  · intro c hlin hb hg ha
    simp [detect_cloud, hlin, hb, hg, ha]
  · intro d hlin hbios hd hmark
    rcases hbios with hb | ⟨c, hb, hg, ha⟩
    · simp [detect_cloud, hlin, hb, hd, hmark]
    · simp [detect_cloud, hlin, hb, hg, ha, hd, hmark]
  · intro hlin hbios hdhcp
    rcases hbios with hb | ⟨c, hb, hg, ha⟩ <;>
      rcases hdhcp with hd | ⟨d, hd, hmark⟩
    · simp [detect_cloud, hlin, hb, hd]
    · simp [detect_cloud, hlin, hb, hd, hmark]
    · simp [detect_cloud, hlin, hb, hg, ha, hd]
    · simp [detect_cloud, hlin, hb, hg, ha, hd, hmark]

/-- Witness for C6: a Linux host whose BIOS version reads `Google`
(capitalised) is detected as `google`. -/
theorem claim_C6_witness : detect_cloud denvGoogle = "google" :=
  (claim_C6 denvGoogle).2.1 "Google" rfl rfl rfl

/-- Claim C7: once the `_defined` flag is set, invoking the builder
again performs no rebuild and leaves the provider tag and all five
bound accessors unchanged; the builder is idempotent. -/
theorem claim_C7 (s : ModuleState) :
    (s.flagDefined = true → define_functions s = s)
    ∧ define_functions (define_functions s) = define_functions s := by
  constructor
  · intro h
    simp [define_functions, h]
  · by_cases h : s.flagDefined = true <;> simp [define_functions, h]

/-- Witness for C7: a concrete already-defined state is returned
unchanged. -/
theorem claim_C7_witness : define_functions stateDefined = stateDefined :=
  (claim_C7 stateDefined).1 rfl

/-- Counterexample for C8: after the module-load sequence of
`identity.py` — which requests no fact — the accessor set is already
bound and the `_defined` flag set, because `_define_functions()` is
invoked at import time (module bottom), not on the first fact access. -/
theorem claim_C8_counterexample :
    (moduleLoad denvBare).resolvers = some (buildResolvers "unknown")
    ∧ (moduleLoad denvBare).flagDefined = true :=
  ⟨rfl, rfl⟩

/-- Claim C8 (amended): the accessor set is constructed eagerly during
module import, immediately after provider detection and before any fact
access; the `_defined` guard makes any later builder invocation a
no-op, so the set is cached for the remainder of the process. -/
theorem claim_C8 (denv : DetectEnv) :
    (moduleLoad denv).flagDefined = true
    ∧ (moduleLoad denv).resolvers = some (buildResolvers (detect_cloud denv))
    ∧ define_functions (moduleLoad denv) = moduleLoad denv :=
  ⟨rfl, rfl, rfl⟩

/-- Claim C9 (code bug): on a readable cgroup file with no container
marker, `is_containerized` falls off the end of the function body and
returns Python `None` — not `False` as its `-> bool` annotation and the
claim state.  The unreadable-file and marker cases behave as claimed. -/
theorem claim_C9 :
    is_containerized ⟨true, Option.none, Option.none, some "0::/init.scope"⟩
        = Option.none
    ∧ is_containerized ⟨true, Option.none, Option.none, Option.none⟩
        = some false
    ∧ is_containerized
        ⟨true, Option.none, Option.none, some "1:name=systemd:/docker/abc"⟩
        = some true :=
  ⟨rfl, rfl, rfl⟩

theorem unknown_region_nonempty (env : Env) (hreg : env.backendRegion ≠ some "") :
    isNonEmptyStringFact (unknown_get_instance_region env) = true := by
  unfold unknown_get_instance_region isNonEmptyStringFact
  cases hb : env.backendRegion with
  | none => rfl
  | some s =>
      show (s != "") = true
      rw [bne_iff_ne]
      intro hc
      exact hreg (by rw [hb, hc])

/-- Counterexample for C1: with all network access failing, a helper
error on stderr, and `BACKEND_REGION` set to the empty string, the
amazon scaling-group accessor terminates the process (it returns no
fact at all), and the unknown-provider region accessor returns the
empty string. -/
theorem claim_C1_counterexample :
    networkDown envDown
    ∧ amazon_get_instance_scaling_group envDown = Outcome.exitProc 1
    ∧ isNonEmptyStringFact (amazon_get_instance_scaling_group envDown) = false
    ∧ isNonEmptyStringFact (unknown_get_instance_region envDown) = false :=
  ⟨⟨fun _ => Or.inr rfl, rfl⟩, rfl, rfl, rfl⟩

/-- Claim C1 (amended): when all network access fails, every accessor
of every provider except the amazon scaling-group accessor returns a
non-empty string, provided `BACKEND_REGION`, when set, is non-empty;
the amazon scaling-group accessor does not degrade to a default — it
returns the helper's raw standard output (possibly empty) or terminates
the process. -/
theorem claim_C1 (env : Env) (hnet : networkDown env)
    (hreg : env.backendRegion ≠ some "") (p : String) (f : FactKind)
    (hx : ¬(p = "amazon" ∧ f = FactKind.scalingGroup)) :
    isNonEmptyStringFact ((buildResolvers p).getFact f env) = true := by
  by_cases hp1 : p = "amazon"
  · subst hp1
    have hb : buildResolvers "amazon" = amazonResolvers := rfl
    rw [hb]
    cases f with
    | id =>
        show isNonEmptyStringFact (amazon_get_instance_id env) = true
        rw [amazon_id_down env hnet]
        exact i_hostname_ne_empty env.hostname
    | ip =>
        show isNonEmptyStringFact (amazon_get_instance_ip env) = true
        rw [amazon_ip_down env hnet]
        rfl
    | type =>
        show isNonEmptyStringFact (amazon_get_instance_type env) = true
        rw [amazon_type_down env hnet]
        rfl
    | region =>
        show isNonEmptyStringFact (amazon_get_instance_region env) = true
        rw [amazon_region_down env hnet]
        rfl
    | scalingGroup => exact absurd ⟨rfl, rfl⟩ hx
  · by_cases hp2 : p = "azure"
    · subst hp2
      have hb : buildResolvers "azure" = azureResolvers := rfl
      rw [hb]
      cases f with
      | id =>
          show isNonEmptyStringFact (azure_get_instance_id env) = true
          rw [azure_id_down env hnet]
          exact i_hostname_ne_empty env.hostname
      | ip =>
          show isNonEmptyStringFact (azure_get_instance_ip env) = true
          rw [azure_ip_down env hnet]
          rfl
      | type =>
          show isNonEmptyStringFact (azure_get_instance_type env) = true
          rw [azure_type_down env hnet]
          rfl
      | region =>
          show isNonEmptyStringFact (azure_get_instance_region env) = true
          rw [azure_region_down env hnet]
          rfl
      | scalingGroup => rfl
    · by_cases hp3 : p = "google"
      · subst hp3
        have hb : buildResolvers "google" = googleResolvers := rfl
        rw [hb]
        cases f with
        | id =>
            show isNonEmptyStringFact (google_get_instance_id env) = true
            rw [google_id_down env hnet]
            exact i_hostname_ne_empty env.hostname
        | ip =>
            show isNonEmptyStringFact (google_get_instance_ip env) = true
            rw [google_ip_down env hnet]
            rfl
        | type =>
            show isNonEmptyStringFact (google_get_instance_type env) = true
            rw [google_type_down env hnet]
            rfl
        | region =>
            show isNonEmptyStringFact (google_get_instance_region env) = true
            rw [google_region_down env hnet]
            rfl
        | scalingGroup => rfl
      · have hb : buildResolvers p = unknownResolvers := by
          simp [buildResolvers, hp1, hp2, hp3]
        rw [hb]
        cases f with
        | id =>
            show isNonEmptyStringFact (unknown_get_instance_id env) = true
            exact i_hostname_ne_empty env.hostname
        | ip =>
            show isNonEmptyStringFact (unknown_get_instance_ip env) = true
            rw [unknown_ip_down env hnet]
            rfl
        | type => rfl
        | region => exact unknown_region_nonempty env hreg
        | scalingGroup => rfl

/-- Witness for C1: the google ip accessor returns a non-empty string
in a concrete environment with all network access failing. -/
theorem claim_C1_witness :
    isNonEmptyStringFact
      ((buildResolvers "google").getFact FactKind.ip envDownOk) = true :=
  claim_C1 envDownOk ⟨fun _ => Or.inr rfl, rfl⟩ (by decide) "google"
    FactKind.ip (by decide)

/-- Counterexample for C2: a 200 metadata response whose body `hello`
is not valid JSON makes the azure id accessor and the amazon region
accessor propagate an uncaught exception (`json.loads` failure) instead
of returning the default. -/
theorem claim_C2_counterexample :
    azure_get_instance_id envBadJson = Outcome.exn
    ∧ amazon_get_instance_region envBadJson = Outcome.exn :=
  ⟨rfl, rfl⟩

/-- Claim C2 (amended): any network or DNS failure on any fact of any
provider yields the provider-appropriate default instead of an
exception; but a parsing failure of a successful (status-200) metadata
response propagates an uncaught exception out of the azure accessors
and the amazon region accessor. -/
theorem claim_C2 (env : Env) (hnet : networkDown env) (p : String) (f : FactKind) :
    (buildResolvers p).getFact f env ≠ Outcome.exn := by
  by_cases hp1 : p = "amazon"
  · subst hp1
    have hb : buildResolvers "amazon" = amazonResolvers := rfl
    rw [hb]
    cases f with
    | id =>
        show amazon_get_instance_id env ≠ Outcome.exn
        rw [amazon_id_down env hnet]
        simp
    | ip =>
        show amazon_get_instance_ip env ≠ Outcome.exn
        rw [amazon_ip_down env hnet]
        simp
    | type =>
        show amazon_get_instance_type env ≠ Outcome.exn
        rw [amazon_type_down env hnet]
        simp
    | region =>
        show amazon_get_instance_region env ≠ Outcome.exn
        rw [amazon_region_down env hnet]
        simp
    | scalingGroup =>
        show amazon_get_instance_scaling_group env ≠ Outcome.exn
        unfold amazon_get_instance_scaling_group
          amazon_get_instance_scaling_group_impl
        by_cases herr : env.subprocess.snd = "" <;> simp [herr]
  · by_cases hp2 : p = "azure"
    · subst hp2
      have hb : buildResolvers "azure" = azureResolvers := rfl
      rw [hb]
      cases f with
      | id =>
          show azure_get_instance_id env ≠ Outcome.exn
          rw [azure_id_down env hnet]
          simp
      | ip =>
          show azure_get_instance_ip env ≠ Outcome.exn
          rw [azure_ip_down env hnet]
          simp
      | type =>
          show azure_get_instance_type env ≠ Outcome.exn
          rw [azure_type_down env hnet]
          simp
      | region =>
          show azure_get_instance_region env ≠ Outcome.exn
          rw [azure_region_down env hnet]
          simp
      | scalingGroup =>
          show azure_get_instance_scaling_group env ≠ Outcome.exn
          simp [azure_get_instance_scaling_group]
    · by_cases hp3 : p = "google"
      · subst hp3
        have hb : buildResolvers "google" = googleResolvers := rfl
        rw [hb]
        cases f with
        | id =>
            show google_get_instance_id env ≠ Outcome.exn
            rw [google_id_down env hnet]
            simp
        | ip =>
            show google_get_instance_ip env ≠ Outcome.exn
            rw [google_ip_down env hnet]
            simp
        | type =>
            show google_get_instance_type env ≠ Outcome.exn
            rw [google_type_down env hnet]
            simp
        | region =>
            show google_get_instance_region env ≠ Outcome.exn
            rw [google_region_down env hnet]
            simp
        | scalingGroup =>
            show google_get_instance_scaling_group env ≠ Outcome.exn
            simp [google_get_instance_scaling_group]
      · have hb : buildResolvers p = unknownResolvers := by
          simp [buildResolvers, hp1, hp2, hp3]
        rw [hb]
        cases f with
        | id =>
            show unknown_get_instance_id env ≠ Outcome.exn
            simp [unknown_get_instance_id]
        | ip =>
            show unknown_get_instance_ip env ≠ Outcome.exn
            rw [unknown_ip_down env hnet]
            simp
        | type =>
            show unknown_get_instance_type env ≠ Outcome.exn
            simp [unknown_get_instance_type]
        | region =>
            show unknown_get_instance_region env ≠ Outcome.exn
            simp [unknown_get_instance_region]
        | scalingGroup =>
            show unknown_get_instance_scaling_group env ≠ Outcome.exn
            simp [unknown_get_instance_scaling_group]

/-- Witness for C2: the azure region accessor raises no exception in a
concrete environment with all network access failing. -/
theorem claim_C2_witness :
    (buildResolvers "azure").getFact FactKind.region envDownOk ≠ Outcome.exn :=
  claim_C2 envDownOk ⟨fun _ => Or.inr rfl, rfl⟩ "azure" FactKind.region

/-- Claim C10: when the request fails and `default_value` was omitted
(the parameter default `None`), `curl` returns `None`; the amazon region
accessor and the azure accessors use exactly this `None` as the failure
sentinel before substituting their own non-empty defaults. -/
theorem claim_C10 (env : Env) (hnet : networkDown env) (url : String)
    (ps hds : Option (List (String × String))) (t : Rat) :
    curl env.net url DefaultVal.none ps hds t = Option.none
    ∧ amazon_get_instance_region env
        = Outcome.ok (some (Json.str "amazon/unknown"))
    ∧ azure_get_instance_id env
        = Outcome.ok (some (Json.str ("i-" ++ env.hostname)))
    ∧ azure_get_instance_region env
        = Outcome.ok (some (Json.str "azure/unknown")) := by
  refine ⟨?_, amazon_region_down env hnet, azure_id_down env hnet,
    azure_region_down env hnet⟩
  rw [curl_net_down env hnet.1]
  rfl

/-- Witness for C10: the `None` sentinel and the azure substitution in a
concrete environment with all network access failing. -/
theorem claim_C10_witness :
    curl envDownOk.net "u" DefaultVal.none Option.none Option.none
        defaultCurlTimeout = Option.none
    ∧ azure_get_instance_id envDownOk = Outcome.ok (some (Json.str "i-host1")) := by
  have h := claim_C10 envDownOk ⟨fun _ => Or.inr rfl, rfl⟩ "u" Option.none
    Option.none defaultCurlTimeout
  exact ⟨h.1, h.2.2.1⟩
